import Mathlib

/-!
Shallow embedding of the dwm_monitor watchdog (src/src/main.rs).

The program is a Windows service that polls for the dwm.exe process,
samples its memory footprint, and restarts it (taskkill plus wait)
when the footprint strictly exceeds a configured threshold, or waits
for it to reappear when it is absent.

OS interactions are modelled as explicit inputs:
  * the outcome of OpenProcess / GetProcessMemoryInfo for a pid is a
    value of `MemQueryResult`;
  * the process table seen by EnumProcesses is a `SysState` (a flag for
    enumeration success plus the ordered list of processes with what a
    query of each reveals);
  * each call of is_dwm_running made inside a recovery loop is answered
    by a presence oracle `Nat → Bool` (the i-th check's result);
  * unbounded retry loops are given fuel; theorems about their
    completion take the fuel to reach the first successful check.
Side effects (taskkill invocations, sleeps, presence checks) are
recorded in an `Event` trace so that temporal claims become statements
about traces. Machine integers (u64, usize, DWORD) are modelled as Nat;
all compared quantities in the source are below 2^64 so the order is
the same.
-/

namespace DwmMonitor

/-- Source line 32: `DEFAULT_MEMORY_THRESHOLD: u64 = 1000 * 1024 * 1024`. -/
def DEFAULT_MEMORY_THRESHOLD : Nat := 1000 * 1024 * 1024

/-- Source line 33: `INTERVAL: u64 = 60` seconds. -/
def INTERVAL : Nat := 60

/-- Source lines 37-40: the `MemoryInfo` struct (`private_bytes`, `working_set`). -/
structure MemoryInfo where
  private_bytes : Nat
  working_set : Nat
  deriving DecidableEq, Repr

/-- Outcome of the OS calls inside get_process_memory_info for one pid:
OpenProcess returns null (`openFailed`), OpenProcess succeeds but
GetProcessMemoryInfo returns 0 (`infoFailed`), or both succeed and the
counters hold `PagefileUsage = privateBytes` and `WorkingSetSize =
workingSet` (`ok`). -/
inductive MemQueryResult where
  | openFailed
  | infoFailed
  | ok (privateBytes : Nat) (workingSet : Nat)
  deriving DecidableEq, Repr

/-- Source lines 41-77, get_process_memory_info: `result` starts as zeros;
if OpenProcess fails the function returns None; otherwise, if
GetProcessMemoryInfo succeeds the counters are copied into `result`,
and if it fails only an error is logged — in both of those cases the
function returns `Some(result)`, so a failed info query yields
`Some` of the untouched zeros. -/
def get_process_memory_info (r : MemQueryResult) : Option MemoryInfo :=
  match r with
  | MemQueryResult.openFailed => none
  | MemQueryResult.infoFailed => some ⟨0, 0⟩
  | MemQueryResult.ok pb ws => some ⟨pb, ws⟩

/-- Splitting of a character list at every occurrence of a separator
character, used below with the newline character to split the
configuration file into lines. -/
def splitOnChar (c : Char) : List Char → List (List Char)
  | [] => [[]]
  | x :: xs =>
    match splitOnChar c xs with
    | [] => [[x]]
    | y :: ys => if x == c then [] :: y :: ys else (x :: y) :: ys

/-- Splitting of a config line at its first space-equals-space separator
into the key and the value, the `key = value` shape both the program
and its configuration file use. -/
def splitKeyVal : List Char → Option (List Char × List Char)
  | [] => none
  | x :: xs =>
    match x == Char.ofNat 32, xs with
    | true, y :: z :: rest =>
      if y == Char.ofNat 61 && z == Char.ofNat 32 then some ([], rest)
      else (splitKeyVal xs).map (fun kv => (x :: kv.1, kv.2))
    | _, _ => (splitKeyVal xs).map (fun kv => (x :: kv.1, kv.2))

/-- Value lookup of the external simple_config_parser for the one-key
format this program reads and writes: the file is split into lines, a
line of the shape `key = value` binds `key`, and the first binding of
the requested key is returned. The repository's own test round-trips
`memory_threshold = 1048576001` through this parser. -/
def parseConfigValue (content : String) (key : String) : Option String :=
  (splitOnChar (Char.ofNat 10) content.data).findSome? (fun line =>
    match splitKeyVal line with
    | some (k, v) => if k = key.data then some (String.mk v) else none
    | none => none)

/-- Decimal digit value of a character, none for a non-digit. -/
def digitVal (c : Char) : Option Nat :=
  if 48 ≤ c.toNat ∧ c.toNat ≤ 57 then some (c.toNat - 48) else none

/-- Rust `str::parse::<u64>` on the value string: decimal digits with the
value below 2^64 (the Rust parser also tolerates one leading plus
sign, which none of the program's values carry); empty or non-numeric
input fails. -/
def parseU64 (s : String) : Option Nat :=
  match s.data with
  | [] => none
  | ds =>
    match ds.foldl (fun acc c =>
      match acc, digitVal c with
      | some n, some d => some (n * 10 + d)
      | _, _ => none) (some 0) with
    | some n => if n < 2 ^ 64 then some n else none
    | none => none

/-- Source lines 78-93, get_memory_threshold. The configuration file is
modelled as `Option String` (its contents when it exists). When the
file exists its `memory_threshold` value is parsed with `.unwrap()` —
a missing key or unparseable value aborts the program, modelled as
`Except.error ()`. When the file does not exist, the default is
written to it and returned. The result pairs the threshold with the
file contents after the call. -/
def get_memory_threshold (file : Option String) : Except Unit (Nat × Option String) :=
  match file with
  | some content =>
    match parseConfigValue content "memory_threshold" with
    | some v =>
      match parseU64 v with
      | some t => Except.ok (t, some content)
      | none => Except.error ()
    | none => Except.error ()
  | none =>
    Except.ok (DEFAULT_MEMORY_THRESHOLD,
      some ("memory_threshold = " ++ toString DEFAULT_MEMORY_THRESHOLD))

/-- Rust `char::to_ascii_lowercase`: ASCII capitals are shifted by 32,
every other character is unchanged. -/
def asciiLower (c : Char) : Char :=
  if 65 ≤ c.toNat ∧ c.toNat ≤ 90 then Char.ofNat (c.toNat + 32) else c

/-- Rust `str::eq_ignore_ascii_case`: equality after ASCII lowercasing
(for the pure-ASCII needle "dwm.exe" this agrees with the byte-wise
comparison the Rust code performs). -/
def eqIgnoreAsciiCase (a b : String) : Bool :=
  a.data.map asciiLower == b.data.map asciiLower

/-- Rust `str::trim_end_matches(given char 0)`: drop every trailing NUL; the
source applies this to the UTF-16-decoded 260-unit module-name buffer. -/
def rustTrimEndNulls (s : String) : String :=
  ⟨(s.data.reverse.dropWhile (fun c => c == Char.ofNat 0)).reverse⟩

/-- What querying one enumerated process reveals, mirroring the cascade in
is_dwm_running: OpenProcess null (`unopenable`), EnumProcessModules
returning 0 (`noModules`), GetModuleBaseNameW returning 0 (`noName`),
or a decoded base-name string, trailing NULs included (`named`). -/
inductive ProcInfo where
  | unopenable
  | noModules
  | noName
  | named (raw : String)
  deriving DecidableEq, Repr

/-- State of the OS process table as EnumProcesses reports it: whether the
enumeration call succeeds, and the processes in enumeration order,
each with its pid and what querying it reveals. -/
structure SysState where
  enumOk : Bool
  procs : List (Nat × ProcInfo)

/-- The loop body of is_dwm_running over the enumerated slice: processes
that cannot be opened or queried are skipped with `continue`; a process
whose trimmed base name equals "dwm.exe" case-insensitively returns its
pid at once; falling off the end yields None. -/
def scanProcs : List (Nat × ProcInfo) → Option Nat
  | [] => none
  | (pid, info) :: rest =>
    match info with
    | ProcInfo.unopenable => scanProcs rest
    | ProcInfo.noModules => scanProcs rest
    | ProcInfo.noName => scanProcs rest
    | ProcInfo.named raw =>
      if eqIgnoreAsciiCase (rustTrimEndNulls raw) "dwm.exe" then some pid
      else scanProcs rest

/-- Source lines 94-134, is_dwm_running: a fixed `[DWORD; 1024]` buffer is
passed to EnumProcesses, so at most the first 1024 enumerated processes
are examined; if EnumProcesses itself fails the function returns None. -/
def is_dwm_running (s : SysState) : Option Nat :=
  if s.enumOk then scanProcs (s.procs.take 1024) else none

/-- Predicate a process entry must satisfy for the scan to return it. -/
def matchesTarget : ProcInfo → Bool
  | ProcInfo.named raw => eqIgnoreAsciiCase (rustTrimEndNulls raw) "dwm.exe"
  | _ => false

/-- Observable side effects of the watchdog, in program order: a taskkill
invocation (`invoked` records whether Command::output returned Ok), a
sleep of the given number of seconds, and a presence check together
with its result (is_dwm_running().is_some()). -/
inductive Event where
  | taskkill (invoked : Bool)
  | sleep (secs : Nat)
  | presenceCheck (result : Bool)
  deriving DecidableEq, Repr

/-- Whether an event is a termination request. -/
def isKill : Event → Bool
  | Event.taskkill _ => true
  | _ => false

/-- Source lines 156-162, the inner retry loop of restart_dwm:
`loop { sleep(1); if is_dwm_running().is_some() { break } }`.
The i-th presence check is answered by `o i`; `fuel` bounds the number
of modelled iterations, and the Bool records whether the loop exited
(broke on a successful check) within that bound. -/
def waitLoopTrace (o : Nat → Bool) (i : Nat) (fuel : Nat) : List Event × Bool :=
  match fuel with
  | 0 => ([], false)
  | Nat.succ f =>
    if o i then ([Event.sleep 1, Event.presenceCheck (o i)], true)
    else
      (Event.sleep 1 :: Event.presenceCheck (o i) :: (waitLoopTrace o (i + 1) f).1,
        (waitLoopTrace o (i + 1) f).2)

/-- Source lines 135-164, restart_dwm: invoke taskkill (an Err result is
only logged, recorded in the first event's flag), sleep the 10-second
grace period, re-check presence once, and if the target is absent run
the 1-second retry loop; the Bool records whether the function returned
(the target was seen) within the fuel bound. -/
def restart_dwm_trace (k : Bool) (o : Nat → Bool) (fuel : Nat) : List Event × Bool :=
  if o 0 then
    ([Event.taskkill k, Event.sleep 10, Event.presenceCheck (o 0)], true)
  else
    (Event.taskkill k :: Event.sleep 10 :: Event.presenceCheck (o 0) ::
      (waitLoopTrace o 1 fuel).1, (waitLoopTrace o 1 fuel).2)

/-- Source lines 166-174, wait_for_dwm_restart:
`loop { if is_dwm_running().is_some() { break }; sleep(1) }` — the
check comes first, then the sleep. -/
def wait_for_dwm_restart_trace (o : Nat → Bool) (i : Nat) (fuel : Nat) : List Event × Bool :=
  match fuel with
  | 0 => ([], false)
  | Nat.succ f =>
    if o i then ([Event.presenceCheck (o i)], true)
    else
      (Event.presenceCheck (o i) :: Event.sleep 1 ::
        (wait_for_dwm_restart_trace o (i + 1) f).1,
        (wait_for_dwm_restart_trace o (i + 1) f).2)

/-- What one polling cycle of monitor_dwm observes: either is_dwm_running
found a pid, in which case the memory query for it has some outcome, or
it did not. -/
inductive CycleObservation where
  | found (r : MemQueryResult)
  | notFound
  deriving DecidableEq, Repr

/-- Source lines 177-194, one iteration of the monitor_dwm loop, as the
event trace it produces. When a pid is found, the memory query's result
is `unwrap_or`-defaulted to zeros, and restart_dwm runs exactly when
`private_bytes > memory_threshold`; when no pid is found,
wait_for_dwm_restart runs. Either way the iteration ends with the
fixed INTERVAL sleep. -/
def monitor_cycle_trace (t : Nat) (obs : CycleObservation) (k : Bool)
    (o : Nat → Bool) (fuel : Nat) : List Event :=
  match obs with
  | CycleObservation.found r =>
    (if ((get_process_memory_info r).getD ⟨0, 0⟩).private_bytes > t
     then (restart_dwm_trace k o fuel).1 else [])
      ++ [Event.sleep INTERVAL]
  | CycleObservation.notFound =>
    (wait_for_dwm_restart_trace o 0 fuel).1 ++ [Event.sleep INTERVAL]

/-- Inputs consumed by one polling cycle: the observation, the taskkill
invocation result, the presence oracle for any recovery sub-loop, and
the modelling fuel for that sub-loop. -/
structure CycleInput where
  obs : CycleObservation
  killOk : Bool
  oracle : Nat → Bool
  fuel : Nat

/-- Source lines 175-195, monitor_dwm: the threshold is loaded before the
loop is entered; a threshold-loading abort (`Except.error`) prevents
any cycle from running. On success the trace is the concatenation of
the per-cycle traces for the supplied list of cycle inputs. -/
def monitor_dwm_trace (file : Option String) (inputs : List CycleInput) :
    Except Unit (List Event) :=
  match get_memory_threshold file with
  | Except.error e => Except.error e
  | Except.ok (t, _) =>
    Except.ok ((inputs.map (fun c =>
      monitor_cycle_trace t c.obs c.killOk c.oracle c.fuel)).flatten)

/-! Helper lemmas shared by the claim theorems. -/

/-- Every restart trace begins with the taskkill invocation, so it always
contains a termination request. -/
lemma restart_any_kill (k : Bool) (o : Nat → Bool) (fuel : Nat) :
    ((restart_dwm_trace k o fuel).1).any isKill = true := by
  cases h : o 0 <;> simp [restart_dwm_trace, h, isKill]

/-- The inner 1-second retry loop of restart_dwm never issues a
termination request. -/
lemma waitLoop_no_kill (o : Nat → Bool) :
    ∀ fuel i, ((waitLoopTrace o i fuel).1).any isKill = false := by
  intro fuel
  induction fuel with
  | zero => intro i; simp [waitLoopTrace]
  | succ f ih =>
    intro i
    cases h : o i <;> simp [waitLoopTrace, h, isKill, ih]

/-- The wait_for_dwm_restart loop never issues a termination request. -/
lemma wait_restart_no_kill (o : Nat → Bool) :
    ∀ fuel i, ((wait_for_dwm_restart_trace o i fuel).1).any isKill = false := by
  intro fuel
  induction fuel with
  | zero => intro i; simp [wait_for_dwm_restart_trace]
  | succ f ih =>
    intro i
    cases h : o i <;> simp [wait_for_dwm_restart_trace, h, isKill, ih]

/-- C1. For every usage value u and threshold t the monitor cycle issues a
termination request exactly when u > t strictly; usage equal to the
threshold triggers nothing, usage t + 1 triggers a restart. -/
theorem violation_decision_strict (u w t : Nat) (k : Bool) (o : Nat → Bool) (fuel : Nat) :
    ((monitor_cycle_trace t (CycleObservation.found (MemQueryResult.ok u w)) k o fuel).any isKill
        = decide (u > t)) ∧
    ((monitor_cycle_trace t (CycleObservation.found (MemQueryResult.ok t w)) k o fuel).any isKill
        = false) ∧
    ((monitor_cycle_trace t (CycleObservation.found (MemQueryResult.ok (t + 1) w)) k o fuel).any isKill
        = true) := by
  have key : ∀ u2, (monitor_cycle_trace t
      (CycleObservation.found (MemQueryResult.ok u2 w)) k o fuel).any isKill
      = decide (u2 > t) := by
    intro u2
    by_cases h : u2 > t
    · simp [monitor_cycle_trace, get_process_memory_info, h, restart_any_kill, isKill]
    · simp [monitor_cycle_trace, get_process_memory_info, h, isKill]
  refine ⟨key u, ?_, ?_⟩
  · rw [key t]; simp
  · rw [key (t + 1)]; simp

/-- C2. A polling cycle that does not find the target runs exactly the
wait_for_dwm_restart loop followed by the interval sleep, and contains
no termination request; any cycle that does contain a termination
request observed a found target whose extracted usage strictly
exceeded the threshold. -/
theorem monitor_termination_only_on_violation (t : Nat) (k : Bool) (o : Nat → Bool) (fuel : Nat) :
    (monitor_cycle_trace t CycleObservation.notFound k o fuel
        = (wait_for_dwm_restart_trace o 0 fuel).1 ++ [Event.sleep INTERVAL]) ∧
    ((monitor_cycle_trace t CycleObservation.notFound k o fuel).any isKill = false) ∧
    (∀ obs, (monitor_cycle_trace t obs k o fuel).any isKill = true →
      ∃ r, obs = CycleObservation.found r ∧
        ((get_process_memory_info r).getD ⟨0, 0⟩).private_bytes > t) := by
  refine ⟨rfl, ?_, ?_⟩
  · simp [monitor_cycle_trace, wait_restart_no_kill, isKill]
  · intro obs hk
    cases obs with
    | found r =>
      by_cases hv : ((get_process_memory_info r).getD ⟨0, 0⟩).private_bytes > t
      · exact ⟨r, rfl, hv⟩
      · exfalso
        simp [monitor_cycle_trace, hv, isKill] at hk
    | notFound =>
      exfalso
      simp [monitor_cycle_trace, wait_restart_no_kill, isKill] at hk

/-- Witness for C2: at threshold 10, a cycle with the target found at
usage 11 contains a termination request, and the theorem then yields
the found observation and the strict violation. -/
theorem monitor_termination_only_on_violation_witness :
    ∃ r, CycleObservation.found (MemQueryResult.ok 11 0) = CycleObservation.found r ∧
      ((get_process_memory_info r).getD ⟨0, 0⟩).private_bytes > 10 := by
  exact (monitor_termination_only_on_violation 10 true (fun _ => true) 1).2.2
    (CycleObservation.found (MemQueryResult.ok 11 0)) (by decide)

/-- C4. A cycle whose memory query returns none (OpenProcess failed) is
inconclusive: its whole trace is the interval sleep — no termination
request, no abort, the loop proceeds to the next cycle — for every
threshold value. -/
theorem no_data_no_restart (t : Nat) (k : Bool) (o : Nat → Bool) (fuel : Nat) :
    (monitor_cycle_trace t (CycleObservation.found MemQueryResult.openFailed) k o fuel
        = [Event.sleep INTERVAL]) ∧
    ((monitor_cycle_trace t (CycleObservation.found MemQueryResult.openFailed) k o fuel).any isKill
        = false) := by
  have h : monitor_cycle_trace t (CycleObservation.found MemQueryResult.openFailed) k o fuel
      = [Event.sleep INTERVAL] := by
    simp [monitor_cycle_trace, get_process_memory_info]
  exact ⟨h, by rw [h]; simp [isKill]⟩

/-- C3 counterexample: when OpenProcess succeeds but GetProcessMemoryInfo
fails — an underlying query failure, which the claim says must yield
none — the source still returns Some of the zero-initialized struct, a
fabricated placeholder rather than measured data. -/
theorem mem_query_failure_yields_placeholder :
    get_process_memory_info MemQueryResult.infoFailed = some ⟨0, 0⟩ ∧
    get_process_memory_info MemQueryResult.infoFailed ≠ none := by
  exact ⟨rfl, by simp [get_process_memory_info]⟩

/-- C3 amended: the memory query returns none exactly when the process
cannot be opened; when it can be opened, the call always returns a
value — the measured counters when GetProcessMemoryInfo succeeds, and
a zero placeholder when it fails. -/
theorem get_process_memory_info_amended (r : MemQueryResult) :
    (get_process_memory_info r = none ↔ r = MemQueryResult.openFailed) ∧
    (∀ pb ws, r = MemQueryResult.ok pb ws → get_process_memory_info r = some ⟨pb, ws⟩) ∧
    (r = MemQueryResult.infoFailed → get_process_memory_info r = some ⟨0, 0⟩) := by
  cases r <;> simp [get_process_memory_info]

/-- Witness for C3's amended theorem at the concrete inputs ok 7 3 and
openFailed. -/
theorem get_process_memory_info_amended_witness :
    get_process_memory_info (MemQueryResult.ok 7 3) = some ⟨7, 3⟩ ∧
    get_process_memory_info MemQueryResult.openFailed = none := by
  exact ⟨(get_process_memory_info_amended (MemQueryResult.ok 7 3)).2.1 7 3 rfl,
    (get_process_memory_info_amended MemQueryResult.openFailed).1.mpr rfl⟩

/-- Exact shape of the inner retry loop's trace when the first successful
presence check is the n-th one made by the loop (checks counted from
its starting oracle index i): n failing iterations of sleep-then-check,
then a final successful iteration, and the loop exits. -/
lemma waitLoopTrace_first_true (o : Nat → Bool) :
    ∀ n i fuel, o (i + n) = true → (∀ m, m < n → o (i + m) = false) → n < fuel →
      waitLoopTrace o i fuel =
        ((List.replicate n [Event.sleep 1, Event.presenceCheck false]).flatten
          ++ [Event.sleep 1, Event.presenceCheck true], true) := by
  intro n
  induction n with
  | zero =>
    intro i fuel h1 _ h3
    cases fuel with
    | zero => omega
    | succ f =>
      have h0 : o i = true := by simpa using h1
      simp [waitLoopTrace, h0]
  | succ m ih =>
    intro i fuel h1 h2 h3
    cases fuel with
    | zero => omega
    | succ f =>
      have h0 : o i = false := by simpa using h2 0 (Nat.succ_pos m)
      have h1a : o ((i + 1) + m) = true := by
        have e : (i + 1) + m = i + (m + 1) := by omega
        rw [e]; exact h1
      have h2a : ∀ j, j < m → o ((i + 1) + j) = false := by
        intro j hj
        have e : (i + 1) + j = i + (j + 1) := by omega
        rw [e]; exact h2 (j + 1) (by omega)
      have hrec := ih (i + 1) f h1a h2a (by omega)
      simp [waitLoopTrace, h0, hrec, List.replicate_succ]

/-- When the inner retry loop of restart_dwm exits, its last recorded
event is a successful presence check. -/
lemma waitLoop_done_last (o : Nat → Bool) :
    ∀ fuel i, (waitLoopTrace o i fuel).2 = true →
      (waitLoopTrace o i fuel).1.getLast? = some (Event.presenceCheck true) := by
  intro fuel
  induction fuel with
  | zero => intro i h; simp [waitLoopTrace] at h
  | succ f ih =>
    intro i h
    cases h0 : o i with
    | true => simp [waitLoopTrace, h0]
    | false =>
      rw [waitLoopTrace] at h ⊢
      simp only [h0, if_neg Bool.false_ne_true] at h ⊢
      have hrest := ih (i + 1) h
      cases hl : (waitLoopTrace o (i + 1) f).1 with
      | nil => simp [hl] at hrest
      | cons x xs =>
        rw [hl] at hrest
        rw [List.getLast?_cons_cons, List.getLast?_cons_cons]
        exact hrest

/-- Full characterization of restart_dwm's trace when the first successful
presence check is check number n (0-based over all checks it makes,
the post-grace check included) and the fuel covers the retry loop:
taskkill, the 10-second grace sleep, the first re-check, then — when
that first re-check failed — the 1-second loop up to its first success;
the function returns. -/
lemma restart_dwm_trace_eq (k : Bool) (o : Nat → Bool) (n fuel : Nat)
    (h1 : o n = true) (h2 : ∀ m, m < n → o m = false) (h3 : n ≤ fuel) :
    restart_dwm_trace k o fuel =
      (Event.taskkill k :: Event.sleep 10 :: Event.presenceCheck (o 0) ::
        (if n = 0 then []
         else (List.replicate (n - 1) [Event.sleep 1, Event.presenceCheck false]).flatten
            ++ [Event.sleep 1, Event.presenceCheck true]), true) := by
  cases n with
  | zero =>
    simp [restart_dwm_trace, h1]
  | succ m =>
    have h0 : o 0 = false := h2 0 (Nat.succ_pos m)
    have h1a : o (1 + m) = true := by
      have e : 1 + m = m + 1 := by omega
      rw [e]; exact h1
    have h2a : ∀ j, j < m → o (1 + j) = false := by
      intro j hj
      have e : 1 + j = j + 1 := by omega
      rw [e]; exact h2 (j + 1) (by omega)
    have hw := waitLoopTrace_first_true o m 1 fuel h1a h2a (by omega)
    simp [restart_dwm_trace, h0, hw]

/-- C5. The terminate-and-confirm recovery runs exactly: termination
request, fixed 10-second grace sleep, one presence re-check, and — only
if that check failed — the unbounded 1-second re-check loop, stopping
at the first successful check (so it returns whenever some check
reports the target running, which under the hypotheses is check n);
moreover whenever the operation returns, the last event is a
successful presence check — it returns only after a check reports the
target running. -/
theorem restart_dwm_protocol (k : Bool) (o : Nat → Bool) (n fuel : Nat)
    (h1 : o n = true) (h2 : ∀ m, m < n → o m = false) (h3 : n ≤ fuel) :
    (restart_dwm_trace k o fuel =
      (Event.taskkill k :: Event.sleep 10 :: Event.presenceCheck (o 0) ::
        (if n = 0 then []
         else (List.replicate (n - 1) [Event.sleep 1, Event.presenceCheck false]).flatten
            ++ [Event.sleep 1, Event.presenceCheck true]), true)) ∧
    (∀ f2, (restart_dwm_trace k o f2).2 = true →
      (restart_dwm_trace k o f2).1.getLast? = some (Event.presenceCheck true)) := by
  refine ⟨restart_dwm_trace_eq k o n fuel h1 h2 h3, ?_⟩
  intro f2 hdone
  cases h0 : o 0 with
  | true => simp [restart_dwm_trace, h0]
  | false =>
    rw [restart_dwm_trace] at hdone ⊢
    simp only [h0, if_neg Bool.false_ne_true] at hdone ⊢
    have hrest := waitLoop_done_last o f2 1 hdone
    cases hl : (waitLoopTrace o 1 f2).1 with
    | nil => simp [hl] at hrest
    | cons x xs =>
      rw [hl] at hrest
      rw [List.getLast?_cons_cons, List.getLast?_cons_cons, List.getLast?_cons_cons]
      exact hrest

/-- Witness for C5: with presence first reported at check 2 and fuel 2,
the recovery emits taskkill, the grace sleep, a failed re-check, one
failed loop iteration and one successful one, then returns. -/
theorem restart_dwm_protocol_witness :
    restart_dwm_trace true (fun i => i == 2) 2 =
      ([Event.taskkill true, Event.sleep 10, Event.presenceCheck false,
        Event.sleep 1, Event.presenceCheck false,
        Event.sleep 1, Event.presenceCheck true], true) := by
  have h := (restart_dwm_protocol true (fun i => i == 2) 2 2 (by decide)
    (by decide) (by decide)).1
  exact h.trans (by decide)

/-- C6. A failed taskkill invocation is only logged: the recovery's first
event records the failure, everything after it is identical to the
successful-invocation run, and under eventual presence the recovery
still completes, reporting the target running again. -/
theorem restart_dwm_kill_failure_tolerated (o : Nat → Bool) (n fuel : Nat)
    (h1 : o n = true) (h2 : ∀ m, m < n → o m = false) (h3 : n ≤ fuel) :
    ((restart_dwm_trace false o fuel).1.head? = some (Event.taskkill false)) ∧
    ((restart_dwm_trace false o fuel).1.tail = (restart_dwm_trace true o fuel).1.tail) ∧
    ((restart_dwm_trace false o fuel).2 = true) := by
  refine ⟨?_, ?_, ?_⟩
  · cases h0 : o 0 <;> simp [restart_dwm_trace, h0]
  · cases h0 : o 0 <;> simp [restart_dwm_trace, h0]
  · rw [restart_dwm_trace_eq false o n fuel h1 h2 h3]

/-- Witness for C6 with presence first reported at check 1 and fuel 1. -/
theorem restart_dwm_kill_failure_tolerated_witness :
    ((restart_dwm_trace false (fun i => i == 1) 1).1.head?
        = some (Event.taskkill false)) ∧
    ((restart_dwm_trace false (fun i => i == 1) 1).1.tail
        = (restart_dwm_trace true (fun i => i == 1) 1).1.tail) ∧
    ((restart_dwm_trace false (fun i => i == 1) 1).2 = true) :=
  restart_dwm_kill_failure_tolerated (fun i => i == 1) 1 1 (by decide) (by decide)
    (by decide)

/-- C7. With no configuration file, loading writes a file whose
memory_threshold value is the default 1000 * 1024 * 1024 bytes and
returns that default; loading again from the file just created yields
the same default and leaves the file unchanged. -/
theorem default_config_roundtrip :
    (get_memory_threshold none =
      Except.ok (DEFAULT_MEMORY_THRESHOLD,
        some ("memory_threshold = " ++ toString DEFAULT_MEMORY_THRESHOLD))) ∧
    (get_memory_threshold
        (some ("memory_threshold = " ++ toString DEFAULT_MEMORY_THRESHOLD)) =
      Except.ok (DEFAULT_MEMORY_THRESHOLD,
        some ("memory_threshold = " ++ toString DEFAULT_MEMORY_THRESHOLD))) ∧
    DEFAULT_MEMORY_THRESHOLD = 1000 * 1024 * 1024 := by
  refine ⟨rfl, ?_, rfl⟩
  rfl

/-- C8. When the configuration file is present but its memory_threshold
value does not parse as a u64, loading aborts with an error, is never
an ok result carrying some substituted threshold, and monitor_dwm
produces no cycle at all: the loop is not entered. -/
theorem malformed_config_fatal (content v : String) (inputs : List CycleInput)
    (h1 : parseConfigValue content "memory_threshold" = some v)
    (h2 : parseU64 v = none) :
    (get_memory_threshold (some content) = Except.error ()) ∧
    (∀ t fs, get_memory_threshold (some content) ≠ Except.ok (t, fs)) ∧
    (monitor_dwm_trace (some content) inputs = Except.error ()) := by
  have hg : get_memory_threshold (some content) = Except.error () := by
    simp [get_memory_threshold, h1, h2]
  refine ⟨hg, ?_, ?_⟩
  · intro t fs hcontra
    rw [hg] at hcontra
    exact Except.noConfusion hcontra
  · simp [monitor_dwm_trace, hg]

/-- Witness for C8: the non-numeric value abc aborts threshold loading and
keeps the monitor loop from running. -/
theorem malformed_config_fatal_witness :
    (get_memory_threshold (some "memory_threshold = abc") = Except.error ()) ∧
    (monitor_dwm_trace (some "memory_threshold = abc") [] = Except.error ()) := by
  have h := malformed_config_fatal "memory_threshold = abc" "abc" [] rfl rfl
  exact ⟨h.1, h.2.2⟩

/-- The scan over enumerated processes is exactly: first entry whose query
reveals a name matching the target (case-insensitively, after NUL
trimming), unqueryable entries skipped. -/
lemma scanProcs_eq_find (l : List (Nat × ProcInfo)) :
    scanProcs l = (l.find? (fun p => matchesTarget p.2)).map Prod.fst := by
  induction l with
  | nil => simp [scanProcs]
  | cons hd tl ih =>
    obtain ⟨pid, info⟩ := hd
    cases info with
    | unopenable => simpa [scanProcs, matchesTarget] using ih
    | noModules => simpa [scanProcs, matchesTarget] using ih
    | noName => simpa [scanProcs, matchesTarget] using ih
    | named raw =>
      cases h : eqIgnoreAsciiCase (rustTrimEndNulls raw) "dwm.exe" with
      | true => simp [scanProcs, h, matchesTarget]
      | false => simpa [scanProcs, h, matchesTarget] using ih

set_option maxRecDepth 8192 in
/-- C9 counterexample: a system state whose enumeration succeeds, whose
first 1024 processes are named other, and whose 1025th process is a
running dwm.exe: a process matching the target exists, yet discovery
reports none. -/
theorem find_target_misses_running_target :
    (is_dwm_running ⟨true, List.replicate 1024 ((1 : Nat), ProcInfo.named "other")
        ++ [((42 : Nat), ProcInfo.named "dwm.exe")]⟩ = none) ∧
    (((42 : Nat), ProcInfo.named "dwm.exe") ∈
      (List.replicate 1024 ((1 : Nat), ProcInfo.named "other")
        ++ [((42 : Nat), ProcInfo.named "dwm.exe")])) ∧
    (matchesTarget (ProcInfo.named "dwm.exe") = true) := by
  have hc : eqIgnoreAsciiCase (rustTrimEndNulls "other") "dwm.exe" = false := by decide
  have hscan : ∀ n, scanProcs (List.replicate n ((1 : Nat), ProcInfo.named "other")) = none := by
    intro n
    induction n with
    | zero => rfl
    | succ m ih =>
      rw [List.replicate_succ]
      simp [scanProcs, hc, ih]
  have htake : (List.replicate 1024 ((1 : Nat), ProcInfo.named "other")
      ++ [((42 : Nat), ProcInfo.named "dwm.exe")]).take 1024
      = List.replicate 1024 ((1 : Nat), ProcInfo.named "other") :=
    List.take_left' (List.length_replicate 1024 _)
  refine ⟨?_, List.mem_append_right _ (List.mem_singleton_self _), by decide⟩
  calc is_dwm_running ⟨true, List.replicate 1024 ((1 : Nat), ProcInfo.named "other")
        ++ [((42 : Nat), ProcInfo.named "dwm.exe")]⟩
      = scanProcs ((List.replicate 1024 ((1 : Nat), ProcInfo.named "other")
        ++ [((42 : Nat), ProcInfo.named "dwm.exe")]).take 1024) := rfl
    _ = scanProcs (List.replicate 1024 ((1 : Nat), ProcInfo.named "other")) := by rw [htake]
    _ = none := hscan 1024

/-- C9 amended: when the enumeration call succeeds, discovery returns the
pid of the first entry among the first 1024 enumerated processes whose
name matches the target case-insensitively (unqueryable entries
skipped), and returns none exactly when no entry in that window
matches. -/
theorem find_target_amended (s : SysState) (h : s.enumOk = true) :
    (is_dwm_running s =
      ((s.procs.take 1024).find? (fun p => matchesTarget p.2)).map Prod.fst) ∧
    (is_dwm_running s = none ↔
      ∀ p, p ∈ s.procs.take 1024 → matchesTarget p.2 = false) := by
  have he : is_dwm_running s = scanProcs (s.procs.take 1024) := by
    simp [is_dwm_running, h]
  rw [he, scanProcs_eq_find]
  refine ⟨rfl, ?_⟩
  rw [Option.map_eq_none']
  rw [List.find?_eq_none]
  simp

/-- Witness for C9's amended theorem: a single enumerated process whose
decoded name is DWM.EXE (upper case, trailing NULs) is found by the
case-insensitive match and its pid 5 is returned. -/
theorem find_target_amended_witness :
    is_dwm_running ⟨true, [((5 : Nat), ProcInfo.named "DWM.EXE\x00\x00")]⟩ = some 5 := by
  have h := (find_target_amended ⟨true, [((5 : Nat), ProcInfo.named "DWM.EXE\x00\x00")]⟩ rfl).1
  rw [h]
  decide

/-- C10. Discovery examines only the first 1024 enumerated processes:
entries beyond that window never influence the result, and whenever no
entry of the window matches the target, discovery reports absence no
matter what lies beyond — in particular when the sole running target
is beyond the window. -/
theorem enumeration_buffer_cap (l extra : List (Nat × ProcInfo)) (h : l.length = 1024) :
    (is_dwm_running ⟨true, l ++ extra⟩ = is_dwm_running ⟨true, l⟩) ∧
    ((∀ p, p ∈ l → matchesTarget p.2 = false) →
      is_dwm_running ⟨true, l ++ extra⟩ = none) := by
  have htake : (l ++ extra).take 1024 = l := List.take_left' h
  have htake2 : l.take 1024 = l := List.take_of_length_le (by omega)
  constructor
  · simp [is_dwm_running, htake, htake2]
  · intro hall
    have hfind : l.find? (fun p => matchesTarget p.2) = none := by
      rw [List.find?_eq_none]
      intro x hx
      simp [hall x hx]
    simp [is_dwm_running, htake, scanProcs_eq_find, hfind]

set_option maxRecDepth 8192 in
/-- Witness for C10: 1024 unqueryable processes fill the buffer and the
sole dwm.exe instance sits just beyond it; discovery reports absence. -/
theorem enumeration_buffer_cap_witness :
    is_dwm_running ⟨true, List.replicate 1024 ((3 : Nat), ProcInfo.noName)
        ++ [((42 : Nat), ProcInfo.named "dwm.exe")]⟩ = none := by
  refine (enumeration_buffer_cap (List.replicate 1024 ((3 : Nat), ProcInfo.noName))
      [((42 : Nat), ProcInfo.named "dwm.exe")] (List.length_replicate 1024 _)).2 ?_
  intro p hp
  rw [List.eq_of_mem_replicate hp]
  rfl

end DwmMonitor
